import Mathlib

/-!
Verification of the DVD-screensaver engine (src/src/framework/engine.h).

The repository ships only the header `engine.h`: it declares the Engine
class, fixes WIDTH = 800 and HEIGHT = 600, the key array `bool keys[1024]`,
and the field initializers (`wallsHit = 0`, `cornersHit = 0`,
`confettiOnScreen = false`, `deltaTime = 0`, `lastFrame = 0`,
`mousePressedLastFrame = false`).  The member-function bodies (engine.cpp)
and the Rect shape class are not under src/, so their behaviour is modelled
from the specification; every such definition carries a doc comment that
starts with the words Modelled from the spec.  Floating-point position,
velocity and time values are idealized as rationals.
-/

namespace DvdSim

/-- Window width, from engine.h line 26 (`const unsigned int WIDTH = 800`). -/
def WIDTH : ℚ := 800

/-- Window height, from engine.h line 26 (`const unsigned int HEIGHT = 600`). -/
def HEIGHT : ℚ := 600

/-- Capacity of the key-state array, from engine.h line 30 (`bool keys[1024]`). -/
def KEYS_CAPACITY : Nat := 1024

/-- Modelled from the spec: the Rect shape entity of src/shapes/rect.h (file not
under src/): position (x, y), size, velocity (vx, vy) and a color.  Color is
abstracted to a numeric identifier. -/
structure Rect where
  x : ℚ
  y : ℚ
  width : ℚ
  height : ℚ
  vx : ℚ
  vy : ℚ
  color : Nat
  deriving Repr, DecidableEq

/-- Modelled from the spec: one key event delivered by the window system to the
installed key callback: a key code and whether the key went down. -/
structure KeyEvent where
  key : Int
  pressed : Bool
  deriving Repr, DecidableEq

/-- The Engine state, fields from engine.h lines 23-94.  The key array is
modelled as a total map on key codes; the GLFW window handle is abstracted to
the should-close flag it carries; `rng` abstracts the random source used by
confetti spawning. -/
structure Engine where
  dvd : Rect
  confetti : List Rect
  keys : Int → Bool
  mouseX : ℚ
  mouseY : ℚ
  mousePressedLastFrame : Bool
  deltaTime : ℚ
  lastFrame : ℚ
  wallsHit : Int
  cornersHit : Int
  confettiOnScreen : Bool
  windowShouldClose : Bool
  shadersLoaded : Bool
  rng : Nat

/-- Modelled from the spec: a coordinate crosses its axis when it goes below 0
or above the corresponding dimension (WIDTH or HEIGHT). -/
def crosses (p bound : ℚ) : Bool :=
  decide (p < 0) || decide (bound < p)

/-- Modelled from the spec: clamp a crossing coordinate to the boundary it
crossed; a coordinate inside [0, bound] is unchanged. -/
def clampQ (p bound : ℚ) : ℚ :=
  if p < 0 then 0 else if bound < p then bound else p

/-- Modelled from the spec: reflect (negate) the velocity component of an axis
whose coordinate crossed a boundary. -/
def reflectV (p v bound : ℚ) : ℚ :=
  if crosses p bound then -v else v

/-- Modelled from the spec: advance a shape by velocity times deltaTime. -/
def advance (r : Rect) (dt : ℚ) : Rect :=
  { r with x := r.x + r.vx * dt, y := r.y + r.vy * dt }

/-- Modelled from the spec: the per-axis reflection applied to a shape by both
bounds checks: each axis independently reflects its velocity component and
clamps its coordinate to the boundary. -/
def reflectRect (r : Rect) : Rect :=
  { r with x := clampQ r.x WIDTH, vx := reflectV r.x r.vx WIDTH,
           y := clampQ r.y HEIGHT, vy := reflectV r.y r.vy HEIGHT }

/-- A linear congruential step standing in for the random source. -/
def lcg (s : Nat) : Nat :=
  (1103515245 * s + 12345) % 2147483648

/-- Modelled from the spec: the freshly spawned confetti rectangle, with a
randomized position inside the window, a randomized color, and a velocity
vector derived from the random source. -/
def freshConfetti (s : Nat) : Rect :=
  { x := ((lcg s % 800 : Nat) : ℚ),
    y := ((lcg (lcg s) % 600 : Nat) : ℚ),
    width := 15, height := 15,
    vx := ((lcg (lcg (lcg s)) % 101 : Nat) : ℚ) - 50,
    vy := ((lcg (lcg (lcg (lcg s))) % 101 : Nat) : ℚ) - 50,
    color := lcg (lcg (lcg (lcg (lcg s)))) % 256 }

/-- Modelled from the spec: Engine::spawnConfetti (engine.h line 75) constructs
a new rectangle with a randomized position, a randomized color and a velocity
vector and pushes it back onto the confetti collection. -/
def spawnConfetti (e : Engine) : Engine :=
  { e with confetti := e.confetti ++ [freshConfetti e.rng], rng := lcg e.rng }

/-- Modelled from the spec: Engine::checkBounds (engine.h line 117).  Each axis
independently reflects and clamps; a reflection on exactly one axis increments
wallsHit; reflections on both axes increment cornersHit and spawn confetti. -/
def checkBounds (e : Engine) : Engine :=
  let hitX := crosses e.dvd.x WIDTH
  let hitY := crosses e.dvd.y HEIGHT
  let e1 := { e with dvd := reflectRect e.dvd }
  if hitX && hitY then
    spawnConfetti { e1 with cornersHit := e1.cornersHit + 1 }
  else if hitX || hitY then
    { e1 with wallsHit := e1.wallsHit + 1 }
  else
    e1

/-- Modelled from the spec: Engine::checkConfettiBounds (engine.h line 120)
applies the same per-axis reflection to the given confetti piece as the logo
bounds check, but touches no counter and no other engine state. -/
def checkConfettiBounds (e : Engine) (r : Rect) : Engine × Rect :=
  (e, reflectRect r)

/-- Modelled from the spec: the per-piece confetti pass of Engine::update —
each piece is advanced by its velocity times deltaTime and then passed through
checkConfettiBounds, threading the engine state left to right. -/
def updateConfetti (dt : ℚ) : Engine → List Rect → Engine × List Rect
  | e, [] => (e, [])
  | e, r :: rs =>
    let p := checkConfettiBounds e (advance r dt)
    let q := updateConfetti dt p.1 rs
    (q.1, p.2 :: q.2)

/-- Modelled from the spec: Engine::update (engine.h line 79) — compute
deltaTime from the current timestamp and lastFrame, advance the logo, run
checkBounds, advance each confetti piece through checkConfettiBounds, and set
confettiOnScreen from whether the confetti collection is non-empty. -/
def update (e : Engine) (currentFrame : ℚ) : Engine :=
  let dt := currentFrame - e.lastFrame
  let e1 := { e with deltaTime := dt, lastFrame := currentFrame,
                     dvd := advance e.dvd dt }
  let e2 := checkBounds e1
  let p := updateConfetti dt e2 e2.confetti
  { p.1 with confetti := p.2, confettiOnScreen := !p.2.isEmpty }

/-- The list of key-array indices the installed key callback writes for a batch
of delivered key events: the array is indexed directly by the key code. -/
def keyIndicesAccessed (evs : List KeyEvent) : List Int :=
  evs.map KeyEvent.key

/-- Modelled from the spec: Engine::processInput (engine.h line 72) polls the
window system; each delivered key event writes keys at its key code, and the
mouse position and button state are stored. -/
def processInput (e : Engine) (evs : List KeyEvent) (mx my : ℚ)
    (mdown : Bool) : Engine :=
  { e with keys := evs.foldl (fun ks ev => Function.update ks ev.key ev.pressed) e.keys,
           mouseX := mx, mouseY := my, mousePressedLastFrame := mdown }

/-- Modelled from the spec: Engine::initWindow (engine.h line 61) creates the
window and returns 0 on success and -1 on failure; the return type is unsigned
int, so -1 is the value 2^32 - 1.  Success leaves the window with no pending
close request. -/
def initWindow (e : Engine) (success : Bool) : Engine × Nat :=
  if success then ({ e with windowShouldClose := false }, 0)
  else (e, 2 ^ 32 - 1)

/-- Modelled from the spec: Engine::initShaders loads the shape and text shader
programs and constructs the font renderer; no other engine state changes. -/
def initShaders (e : Engine) : Engine :=
  { e with shadersLoaded := true }

/-- Modelled from the spec: Engine::initShapes constructs the initial moving
rectangle with a starting position, size, color and velocity. -/
def initShapes (e : Engine) : Engine :=
  { e with dvd := { x := 400, y := 300, width := 150, height := 75,
                    vx := 50, vy := 50, color := 0 } }

/-- Modelled from the spec: Engine::shouldClose (engine.h line 104) is a
wrapper around glfwWindowShouldClose — it only reads the close flag. -/
def shouldClose (e : Engine) : Bool :=
  e.windowShouldClose

/-- Modelled from the spec: Engine::render draws the current state; it reads
the engine state and changes none of it. -/
def render (e : Engine) : Engine :=
  e

/-- The engine state as built by the in-class field initializers of engine.h
(lines 49, 86-94): both hit counters start at 0, no confetti on screen,
deltaTime and lastFrame start at 0. -/
def initialEngine : Engine :=
  { dvd := { x := 0, y := 0, width := 0, height := 0, vx := 0, vy := 0, color := 0 },
    confetti := [], keys := fun _ => false,
    mouseX := 0, mouseY := 0, mousePressedLastFrame := false,
    deltaTime := 0, lastFrame := 0,
    wallsHit := 0, cornersHit := 0,
    confettiOnScreen := false, windowShouldClose := false,
    shadersLoaded := false, rng := 1 }

/-- One public Engine operation, for stating lifetime invariants. -/
inductive Op where
  | input (evs : List KeyEvent) (mx my : ℚ) (mdown : Bool)
  | step (t : ℚ)
  | draw
  | spawn
  | bounds
  | confettiBounds (r : Rect)
  | closeQuery

/-- The state transition of each public Engine operation. -/
def applyOp (e : Engine) : Op → Engine
  | Op.input evs mx my mdown => processInput e evs mx my mdown
  | Op.step t => update e t
  | Op.draw => render e
  | Op.spawn => spawnConfetti e
  | Op.bounds => checkBounds e
  | Op.confettiBounds r => (checkConfettiBounds e r).1
  | Op.closeQuery => e

/-! Helper lemmas -/

theorem clampQ_mem (p bound : ℚ) (hb : 0 ≤ bound) :
    0 ≤ clampQ p bound ∧ clampQ p bound ≤ bound := by
  unfold clampQ
  split_ifs with h1 h2
  · exact ⟨le_refl 0, hb⟩
  · exact ⟨hb, le_refl bound⟩
  · exact ⟨le_of_not_lt h1, le_of_not_lt h2⟩

theorem updateConfetti_fst (dt : ℚ) (l : List Rect) (e : Engine) :
    (updateConfetti dt e l).1 = e := by
  induction l generalizing e with
  | nil => rfl
  | cons r rs ih => simp [updateConfetti, checkConfettiBounds, ih]

theorem updateConfetti_snd (dt : ℚ) (l : List Rect) (e : Engine) :
    (updateConfetti dt e l).2 = l.map (fun r => reflectRect (advance r dt)) := by
  induction l generalizing e with
  | nil => rfl
  | cons r rs ih => simp [updateConfetti, checkConfettiBounds, ih]

theorem checkBounds_dvd (e : Engine) :
    (checkBounds e).dvd = reflectRect e.dvd := by
  simp only [checkBounds, spawnConfetti]
  split
  · rfl
  · split <;> rfl

theorem checkBounds_wallsHit (e : Engine) :
    (checkBounds e).wallsHit =
      if crosses e.dvd.x WIDTH ≠ crosses e.dvd.y HEIGHT
      then e.wallsHit + 1 else e.wallsHit := by
  cases hx : crosses e.dvd.x WIDTH <;> cases hy : crosses e.dvd.y HEIGHT <;>
    simp [checkBounds, spawnConfetti, hx, hy]

theorem checkBounds_cornersHit (e : Engine) :
    (checkBounds e).cornersHit =
      if crosses e.dvd.x WIDTH && crosses e.dvd.y HEIGHT
      then e.cornersHit + 1 else e.cornersHit := by
  cases hx : crosses e.dvd.x WIDTH <;> cases hy : crosses e.dvd.y HEIGHT <;>
    simp [checkBounds, spawnConfetti, hx, hy]

theorem checkBounds_confetti (e : Engine) :
    (checkBounds e).confetti =
      if crosses e.dvd.x WIDTH && crosses e.dvd.y HEIGHT
      then e.confetti ++ [freshConfetti e.rng] else e.confetti := by
  cases hx : crosses e.dvd.x WIDTH <;> cases hy : crosses e.dvd.y HEIGHT <;>
    simp [checkBounds, spawnConfetti, hx, hy]

theorem advance_vx (r : Rect) (dt : ℚ) : (advance r dt).vx = r.vx := rfl

theorem advance_vy (r : Rect) (dt : ℚ) : (advance r dt).vy = r.vy := rfl

theorem update_flag (e : Engine) (t : ℚ) :
    (update e t).confettiOnScreen = !(update e t).confetti.isEmpty := rfl

theorem not_isEmpty_iff (l : List Rect) : (!l.isEmpty) = true ↔ l ≠ [] := by
  cases l <;> simp

theorem update_dvd (e : Engine) (t : ℚ) :
    (update e t).dvd = reflectRect (advance e.dvd (t - e.lastFrame)) := by
  simp only [update, updateConfetti_fst]
  rw [checkBounds_dvd]

theorem update_wallsHit (e : Engine) (t : ℚ) :
    (update e t).wallsHit =
      if crosses (advance e.dvd (t - e.lastFrame)).x WIDTH ≠
         crosses (advance e.dvd (t - e.lastFrame)).y HEIGHT
      then e.wallsHit + 1 else e.wallsHit := by
  simp only [update, updateConfetti_fst]
  rw [checkBounds_wallsHit]

theorem update_cornersHit (e : Engine) (t : ℚ) :
    (update e t).cornersHit =
      if crosses (advance e.dvd (t - e.lastFrame)).x WIDTH &&
         crosses (advance e.dvd (t - e.lastFrame)).y HEIGHT
      then e.cornersHit + 1 else e.cornersHit := by
  simp only [update, updateConfetti_fst]
  rw [checkBounds_cornersHit]

theorem update_confetti_length (e : Engine) (t : ℚ) :
    (update e t).confetti.length =
      if crosses (advance e.dvd (t - e.lastFrame)).x WIDTH &&
         crosses (advance e.dvd (t - e.lastFrame)).y HEIGHT
      then e.confetti.length + 1 else e.confetti.length := by
  simp only [update, updateConfetti_snd, List.length_map]
  rw [checkBounds_confetti]
  split <;> simp

/-! Claim theorems -/

/-- Claim C1: for every deltaTime value ≥ 0 and every starting state, after
update (and in particular after the checkBounds call it makes, which fully
determines the logo position) the logo position satisfies 0 ≤ x ≤ WIDTH and
0 ≤ y ≤ HEIGHT. -/
theorem update_logo_in_bounds (e : Engine) (t : ℚ)
    (_hdt : 0 ≤ t - e.lastFrame) :
    0 ≤ (update e t).dvd.x ∧ (update e t).dvd.x ≤ WIDTH ∧
    0 ≤ (update e t).dvd.y ∧ (update e t).dvd.y ≤ HEIGHT := by
  rw [update_dvd]
  have hx := clampQ_mem (advance e.dvd (t - e.lastFrame)).x WIDTH (by norm_num [WIDTH])
  have hy := clampQ_mem (advance e.dvd (t - e.lastFrame)).y HEIGHT (by norm_num [HEIGHT])
  exact ⟨hx.1, hx.2, hy.1, hy.2⟩

/-- Witness for C1 at the initial engine and timestamp 1. -/
theorem update_logo_in_bounds_witness :
    0 ≤ (1 : ℚ) - initialEngine.lastFrame ∧
    (0 ≤ (update initialEngine 1).dvd.x ∧ (update initialEngine 1).dvd.x ≤ WIDTH ∧
     0 ≤ (update initialEngine 1).dvd.y ∧ (update initialEngine 1).dvd.y ≤ HEIGHT) :=
  ⟨by norm_num [initialEngine], update_logo_in_bounds initialEngine 1 (by norm_num [initialEngine])⟩

/-- The concrete single-wall scenario of the spec: logo at (798, 300) with
velocity (50, 0). -/
def scenarioWall : Engine :=
  { initialEngine with
      dvd := { x := 798, y := 300, width := 150, height := 75,
               vx := 50, vy := 0, color := 0 } }

/-- Claim C2: when the advanced logo position crosses exactly one boundary,
checkBounds (as run by update) negates that axis velocity component, leaves
the other component alone, clamps the position to the boundary, increments
wallsHit by exactly 1 and leaves cornersHit unchanged. -/
theorem update_single_wall_hit (e : Engine) (t : ℚ)
    (hone : crosses (advance e.dvd (t - e.lastFrame)).x WIDTH ≠
            crosses (advance e.dvd (t - e.lastFrame)).y HEIGHT) :
    (update e t).dvd.vx =
      (if crosses (advance e.dvd (t - e.lastFrame)).x WIDTH then -e.dvd.vx else e.dvd.vx) ∧
    (update e t).dvd.vy =
      (if crosses (advance e.dvd (t - e.lastFrame)).y HEIGHT then -e.dvd.vy else e.dvd.vy) ∧
    (update e t).dvd.x = clampQ (advance e.dvd (t - e.lastFrame)).x WIDTH ∧
    (update e t).dvd.y = clampQ (advance e.dvd (t - e.lastFrame)).y HEIGHT ∧
    (update e t).wallsHit = e.wallsHit + 1 ∧
    (update e t).cornersHit = e.cornersHit := by
  rw [update_dvd, update_wallsHit, update_cornersHit]
  refine ⟨by simp [reflectRect, reflectV, advance_vx],
          by simp [reflectRect, reflectV, advance_vy],
          rfl, rfl, if_pos hone, ?_⟩
  have hcorner : (crosses (advance e.dvd (t - e.lastFrame)).x WIDTH &&
      crosses (advance e.dvd (t - e.lastFrame)).y HEIGHT) = false := by
    cases hx : crosses (advance e.dvd (t - e.lastFrame)).x WIDTH <;>
      cases hy : crosses (advance e.dvd (t - e.lastFrame)).y HEIGHT <;>
        simp_all
  rw [hcorner]
  simp

/-- Witness for C2: the spec scenario at (798, 300), velocity (50, 0),
deltaTime 0.1 — the velocity becomes (-50, 0), x is clamped to 800 and
wallsHit becomes 1 while cornersHit stays 0. -/
theorem update_single_wall_hit_witness :
    (update scenarioWall (1/10)).dvd.vx = -50 ∧
    (update scenarioWall (1/10)).dvd.vy = 0 ∧
    (update scenarioWall (1/10)).dvd.x = 800 ∧
    (update scenarioWall (1/10)).dvd.y = 300 ∧
    (update scenarioWall (1/10)).wallsHit = 1 ∧
    (update scenarioWall (1/10)).cornersHit = 0 := by
  have h := update_single_wall_hit scenarioWall (1/10)
    (by norm_num [crosses, advance, scenarioWall, initialEngine, WIDTH, HEIGHT])
  refine ⟨h.1.trans ?_, h.2.1.trans ?_, h.2.2.1.trans ?_, h.2.2.2.1.trans ?_,
          h.2.2.2.2.1.trans ?_, h.2.2.2.2.2.trans ?_⟩ <;>
    norm_num [crosses, advance, clampQ, scenarioWall, initialEngine, WIDTH, HEIGHT]

/-- The concrete corner scenario of the spec: logo at (798, 598) with
velocity (50, 50). -/
def scenarioCorner : Engine :=
  { initialEngine with
      dvd := { x := 798, y := 598, width := 150, height := 75,
               vx := 50, vy := 50, color := 0 } }

/-- Claim C3: when the advanced logo position crosses both boundaries in one
step, both velocity components are negated, cornersHit increments by exactly 1
and the confetti collection gains one new element (spawnConfetti runs). -/
theorem update_corner_hit (e : Engine) (t : ℚ)
    (hx : crosses (advance e.dvd (t - e.lastFrame)).x WIDTH = true)
    (hy : crosses (advance e.dvd (t - e.lastFrame)).y HEIGHT = true) :
    (update e t).dvd.vx = -e.dvd.vx ∧
    (update e t).dvd.vy = -e.dvd.vy ∧
    (update e t).cornersHit = e.cornersHit + 1 ∧
    (update e t).confetti.length = e.confetti.length + 1 := by
  rw [update_dvd, update_cornersHit, update_confetti_length]
  refine ⟨by simp [reflectRect, reflectV, advance_vx, hx],
          by simp [reflectRect, reflectV, advance_vy, hy], ?_, ?_⟩
  · rw [hx, hy]; simp
  · rw [hx, hy]; simp

/-- Witness for C3: the spec scenario at (798, 598), velocity (50, 50),
deltaTime 0.1 — the velocity becomes (-50, -50), cornersHit becomes 1 and one
confetti piece is appended. -/
theorem update_corner_hit_witness :
    (update scenarioCorner (1/10)).dvd.vx = -50 ∧
    (update scenarioCorner (1/10)).dvd.vy = -50 ∧
    (update scenarioCorner (1/10)).cornersHit = 1 ∧
    (update scenarioCorner (1/10)).confetti.length = 1 := by
  have h := update_corner_hit scenarioCorner (1/10)
    (by norm_num [crosses, advance, scenarioCorner, initialEngine, WIDTH])
    (by norm_num [crosses, advance, scenarioCorner, initialEngine, HEIGHT])
  refine ⟨h.1.trans ?_, h.2.1.trans ?_, h.2.2.1.trans ?_, h.2.2.2.trans ?_⟩ <;>
    norm_num [scenarioCorner, initialEngine]

/-- Claim C4: initWindow returns 0 on success, and on failure a value that is
non-zero — the unsigned-int reading of -1, namely 2^32 - 1. -/
theorem initWindow_return_codes (e : Engine) :
    (initWindow e true).2 = 0 ∧
    (initWindow e false).2 ≠ 0 ∧
    (initWindow e false).2 = 2 ^ 32 - 1 := by
  refine ⟨rfl, ?_, rfl⟩
  simp [initWindow]

/-- Claim C5: spawnConfetti appends exactly one new rectangle to the confetti
collection, removes nothing from it (the old collection is a prefix of the new
one), and leaves the logo rectangle — position, size, velocity and color —
entirely unchanged. -/
theorem spawnConfetti_appends_one (e : Engine) :
    (spawnConfetti e).confetti = e.confetti ++ [freshConfetti e.rng] ∧
    (spawnConfetti e).confetti.length = e.confetti.length + 1 ∧
    (spawnConfetti e).dvd = e.dvd := by
  refine ⟨rfl, ?_, rfl⟩
  simp [spawnConfetti]

/-- Claim C6: checkConfettiBounds applies to the processed piece exactly the
per-axis reflection that checkBounds applies to the logo, and leaves both hit
counters (and the whole engine state) unchanged, for every input state. -/
theorem checkConfettiBounds_same_reflection (e : Engine) (r : Rect) :
    ((checkConfettiBounds e r).1).wallsHit = e.wallsHit ∧
    ((checkConfettiBounds e r).1).cornersHit = e.cornersHit ∧
    (checkConfettiBounds e r).2 = reflectRect r ∧
    (checkBounds e).dvd = reflectRect e.dvd :=
  ⟨rfl, rfl, rfl, checkBounds_dvd e⟩

/-- Claim C7: after every update call, the confettiOnScreen flag is true if
and only if the confetti collection is non-empty. -/
theorem update_confettiOnScreen_iff (e : Engine) (t : ℚ) :
    (update e t).confettiOnScreen = true ↔ (update e t).confetti ≠ [] := by
  rw [update_flag]
  exact not_isEmpty_iff _

/-- Claim C8: shouldClose is a pure pass-through read of the window close
flag, and it returns false right after a successful initWindow, initShaders,
initShapes sequence with no external close request in between. -/
theorem shouldClose_passthrough_and_false_after_init (e : Engine) :
    shouldClose e = e.windowShouldClose ∧
    shouldClose (initShapes (initShaders (initWindow e true).1)) = false :=
  ⟨rfl, rfl⟩

theorem foldl_update_untouched (evs : List KeyEvent) (ks : Int → Bool) (j : Int)
    (hj : j ∉ evs.map KeyEvent.key) :
    evs.foldl (fun m ev => Function.update m ev.key ev.pressed) ks j = ks j := by
  induction evs generalizing ks with
  | nil => rfl
  | cons ev evs ih =>
    simp only [List.map_cons, List.mem_cons, not_or] at hj
    rw [List.foldl_cons, ih _ hj.2]
    exact Function.update_noteq hj.1 _ _

/-- Claim C9: the key-state array has capacity 1024, and every key-array write
performed by the input path uses an index in [0, 1024); indices outside the
accessed set are left untouched, so no access outside that range occurs when
the window system delivers in-range key codes. -/
theorem processInput_key_accesses_in_range (evs : List KeyEvent)
    (hin : ∀ ev ∈ evs, 0 ≤ ev.key ∧ ev.key < (KEYS_CAPACITY : Int)) :
    (∀ i ∈ keyIndicesAccessed evs, 0 ≤ i ∧ i < (KEYS_CAPACITY : Int)) ∧
    (∀ (e : Engine) (mx my : ℚ) (mdown : Bool) (j : Int),
      j ∉ keyIndicesAccessed evs →
      (processInput e evs mx my mdown).keys j = e.keys j) := by
  constructor
  · intro i hi
    obtain ⟨ev, hev, rfl⟩ := List.mem_map.mp hi
    exact hin ev hev
  · intro e mx my mdown j hj
    exact foldl_update_untouched evs e.keys j hj

/-- Witness for C9: one delivered key event with key code 65 stays within the
1024-entry array, and an untouched index such as 70 keeps its old value. -/
theorem processInput_key_accesses_in_range_witness :
    (∀ ev ∈ [KeyEvent.mk 65 true], 0 ≤ ev.key ∧ ev.key < (KEYS_CAPACITY : Int)) ∧
    (processInput initialEngine [KeyEvent.mk 65 true] 0 0 false).keys 70 =
      initialEngine.keys 70 :=
  ⟨by decide,
   (processInput_key_accesses_in_range [KeyEvent.mk 65 true] (by decide)).2
     initialEngine 0 0 false 70 (by decide)⟩

theorem applyOp_counters_mono (e : Engine) (op : Op) :
    e.wallsHit ≤ (applyOp e op).wallsHit ∧ e.cornersHit ≤ (applyOp e op).cornersHit := by
  cases op with
  | input evs mx my mdown => exact ⟨le_refl _, le_refl _⟩
  | step t =>
    constructor
    · rw [applyOp, update_wallsHit]
      split <;> simp
    · rw [applyOp, update_cornersHit]
      split <;> simp
  | draw => exact ⟨le_refl _, le_refl _⟩
  | spawn => exact ⟨le_refl _, le_refl _⟩
  | bounds =>
    constructor
    · rw [applyOp, checkBounds_wallsHit]
      split <;> simp
    · rw [applyOp, checkBounds_cornersHit]
      split <;> simp
  | confettiBounds r => exact ⟨le_refl _, le_refl _⟩
  | closeQuery => exact ⟨le_refl _, le_refl _⟩

theorem foldl_counters_mono (ops : List Op) (e : Engine) :
    e.wallsHit ≤ (ops.foldl applyOp e).wallsHit ∧
    e.cornersHit ≤ (ops.foldl applyOp e).cornersHit := by
  induction ops generalizing e with
  | nil => exact ⟨le_refl _, le_refl _⟩
  | cons op ops ih =>
    have h1 := applyOp_counters_mono e op
    have h2 := ih (applyOp e op)
    exact ⟨le_trans h1.1 h2.1, le_trans h1.2 h2.2⟩

/-- Claim C10: wallsHit and cornersHit start at 0, no public Engine operation
ever decreases either counter, and hence both counters stay non-negative along
every sequence of public operations run from the freshly constructed engine. -/
theorem counters_start_zero_and_never_decrease :
    (initialEngine.wallsHit = 0 ∧ initialEngine.cornersHit = 0) ∧
    (∀ (e : Engine) (op : Op),
      e.wallsHit ≤ (applyOp e op).wallsHit ∧ e.cornersHit ≤ (applyOp e op).cornersHit) ∧
    (∀ ops : List Op,
      0 ≤ (ops.foldl applyOp initialEngine).wallsHit ∧
      0 ≤ (ops.foldl applyOp initialEngine).cornersHit) := by
  refine ⟨⟨rfl, rfl⟩, applyOp_counters_mono, fun ops => ?_⟩
  have h := foldl_counters_mono ops initialEngine
  exact ⟨h.1, h.2⟩

end DvdSim
